import Mathlib

/-!
Verification of the KVM manager service (kvm-mgr-service/main.py).

The development shallowly embeds the pure core of the service:
the command table `PORT_COMMANDS`, the validator `validate_port_number`,
the serial switch transaction `switch_kvm_port`, the port-discovery
helper `get_serial_ports` and the naming helper `get_port_names_from_env`.

Effectful collaborators (pyserial, the OS port enumeration, the process
environment) are modelled as explicit oracles passed to the embedded
functions.  The serial transaction additionally returns the list of
device-access events it performed, in order, so that statements about
"no device access", "the settle delay always runs before the read" and
"the size passed to read" can be made about the trace.  Durations are
in milliseconds (the source uses seconds as floats: 0.5 s and 1.0 s).
-/

/-- Faults a pyserial call can raise, by exception class as the source's
`except` clauses distinguish them: `serial.SerialException`,
`PermissionError`, and any other exception.  Each carries the message that
Python would interpolate into the error string. -/
inductive PyError where
  | serialException (msg : String)
  | permissionError (msg : String)
  | otherError (msg : String)
deriving DecidableEq

/-- Decidable equality for `Except`, needed to evaluate concrete runs. -/
def exceptDecEq {ε α : Type} [DecidableEq ε] [DecidableEq α] :
    (a b : Except ε α) → Decidable (a = b)
  | Except.error e, Except.error f =>
      if h : e = f then isTrue (by rw [h])
      else isFalse (fun hh => h (by injection hh))
  | Except.error _, Except.ok _ => isFalse (fun hh => Except.noConfusion hh)
  | Except.ok _, Except.error _ => isFalse (fun hh => Except.noConfusion hh)
  | Except.ok a, Except.ok b =>
      if h : a = b then isTrue (by rw [h])
      else isFalse (fun hh => h (by injection hh))

instance {ε α : Type} [DecidableEq ε] [DecidableEq α] :
    DecidableEq (Except ε α) :=
  exceptDecEq

/-- Outcome of each step performed on an opened serial handle, supplied by
the transport oracle: the four in-order calls that may raise
(`reset_input_buffer`, `reset_output_buffer`, `write`, `flush`), the
`in_waiting` property read, and the final `read`. -/
structure SerialSession where
  resetInputErr : Option PyError
  resetOutputErr : Option PyError
  writeErr : Option PyError
  flushErr : Option PyError
  inWaitingResult : Except PyError Nat
  readResult : Except PyError (List Nat)
deriving DecidableEq

/-- Result of `serial.Serial(port=..., **SERIAL_CONFIG)`: either an opened
handle whose subsequent step outcomes are given by a `SerialSession`, or the
exception the constructor raised. -/
inductive OpenResult where
  | opened (s : SerialSession)
  | failed (e : PyError)
deriving DecidableEq

/-- Transport oracle: what the serial layer does for a given device path. -/
abbrev Transport := String → OpenResult

/-- Line configuration, mirroring the source's `SERIAL_CONFIG` dict
(`serial.EIGHTBITS` is 8, `serial.PARITY_NONE` is the char N,
`serial.STOPBITS_ONE` is 1; the 1.0 s timeouts are kept in ms). -/
structure SerialConfig where
  baudrate : Nat
  bytesize : Nat
  parity : Char
  stopbits : Nat
  timeoutMs : Nat
  writeTimeoutMs : Nat
deriving DecidableEq

/-- Source constant `SERIAL_CONFIG`. -/
def SERIAL_CONFIG : SerialConfig :=
  {baudrate := 115200, bytesize := 8, parity := 'N', stopbits := 1,
   timeoutMs := 1000, writeTimeoutMs := 1000}

/-- Device-access events, in the order the transaction performs them. -/
inductive Event where
  | openDevice (device : String) (cfg : SerialConfig)
  | resetInputBuffer
  | resetOutputBuffer
  | write (bytes : List Nat)
  | flush
  | sleepMs (ms : Nat)
  | read (size : Nat)
  | close
deriving DecidableEq

/-- Source constant `PORT_COMMANDS`: the fixed MLEEDA KVM1001A command
dictionary, keyed by port number. -/
def PORT_COMMANDS : List (Int × String) :=
  [(1, "X1,1$"), (2, "X2,1$"), (3, "X3,1$"), (4, "X4,1$"), (5, "X5,1$"),
   (6, "X6,1$"), (7, "X7,1$"), (8, "X8,1$"), (9, "X9,1$"), (10, "XA,1$")]

/-- Source constant `AVAILABLE_PORTS`, i.e. list(range(1, 11)). -/
def AVAILABLE_PORTS : List Int := [1, 2, 3, 4, 5, 6, 7, 8, 9, 10]

/-- Source model `SwitchResponse` (pydantic): the structured result of one
switch transaction. -/
structure SwitchResponse where
  success : Bool
  port : Int
  command : String
  response : String
  error : Option String
deriving DecidableEq

/-- Source function `validate_port_number`. -/
def validate_port_number (port : Int) : Bool :=
  1 ≤ port && port ≤ 10

/-- Python `command.encode(ascii)` for the pure-ASCII command strings:
the byte values of the characters. -/
def encodeAscii (s : String) : List Nat :=
  s.data.map Char.toNat

/-- Python `bytes.decode(ascii, errors=ignore)`: bytes above 127 are
dropped instead of failing, the rest become their ASCII characters. -/
def decodeAsciiIgnore (bs : List Nat) : String :=
  ⟨(bs.filter (fun b => b < 128)).map Char.ofNat⟩

/-- Whitespace as Python str.strip() removes it, restricted to the ASCII
range the decoded string can contain: the characters 09 to 0D (tab,
newline, vertical tab, form feed, carriage return), 1C to 1F (the
separator controls, which CPython also treats as whitespace), and space.
Code points at or above 128 are already removed by the decode. -/
def isPySpace (c : Char) : Bool :=
  c = ' ' || c = '\t' || c = '\n' || c = '\r' || c = '\x0b' || c = '\x0c' ||
    c = '\x1c' || c = '\x1d' || c = '\x1e' || c = '\x1f'

/-- Python str.strip(): drop whitespace from both ends. -/
def pyStrip (s : String) : String :=
  ⟨((s.data.dropWhile isPySpace).reverse.dropWhile isPySpace).reverse⟩

/-- Error message built at the invalid-port early return. -/
def invalidPortMsg (p : Int) : String :=
  "Invalid port number: " ++ toString p ++ ". Must be 1-10."

/-- Error message of the `except serial.SerialException` handler. -/
def serialFailMsg (m : String) : String :=
  "Serial communication failed: " ++ m

/-- Error message of the `except PermissionError` handler. -/
def accessDeniedMsg (dev m : String) : String :=
  "Access denied to serial port " ++ dev ++ ": " ++ m

/-- Error message of the catch-all `except Exception` handler. -/
def unexpectedMsg (m : String) : String :=
  "Unexpected error: " ++ m

/-- The three `except` handlers of `switch_kvm_port`, dispatched on the
class of the raised exception.  Each produces the failure `SwitchResponse`
with the already-computed command still populated. -/
def handleError (serial_port : String) (port_num : Int) (command : String) :
    PyError → SwitchResponse
  | PyError.serialException m =>
      {success := false, port := port_num, command := command, response := "",
       error := some (serialFailMsg m)}
  | PyError.permissionError m =>
      {success := false, port := port_num, command := command, response := "",
       error := some (accessDeniedMsg serial_port m)}
  | PyError.otherError m =>
      {success := false, port := port_num, command := command, response := "",
       error := some (unexpectedMsg m)}

/-- Body of the `with serial.Serial(...) as ser:` block, in the source's
strict order: reset both buffers, write the encoded command, flush, sleep
500 ms, then `ser.read(ser.in_waiting or 1024)` and decode-and-strip.
Returns the decoded response or the first raised fault, together with the
events performed (a step that raises still appears in the trace, since the
call was made). -/
def sessionSteps (command : String) (s : SerialSession) :
    Except PyError String × List Event :=
  match s.resetInputErr with
  | some e => (Except.error e, [Event.resetInputBuffer])
  | none =>
    match s.resetOutputErr with
    | some e => (Except.error e, [Event.resetInputBuffer, Event.resetOutputBuffer])
    | none =>
      match s.writeErr with
      | some e =>
          (Except.error e,
           [Event.resetInputBuffer, Event.resetOutputBuffer,
            Event.write (encodeAscii command)])
      | none =>
        match s.flushErr with
        | some e =>
            (Except.error e,
             [Event.resetInputBuffer, Event.resetOutputBuffer,
              Event.write (encodeAscii command), Event.flush])
        | none =>
          match s.inWaitingResult with
          | Except.error e =>
              (Except.error e,
               [Event.resetInputBuffer, Event.resetOutputBuffer,
                Event.write (encodeAscii command), Event.flush,
                Event.sleepMs 500])
          | Except.ok w =>
            let cap := if w = 0 then 1024 else w
            match s.readResult with
            | Except.error e =>
                (Except.error e,
                 [Event.resetInputBuffer, Event.resetOutputBuffer,
                  Event.write (encodeAscii command), Event.flush,
                  Event.sleepMs 500, Event.read cap])
            | Except.ok bs =>
                (Except.ok (pyStrip (decodeAsciiIgnore bs)),
                 [Event.resetInputBuffer, Event.resetOutputBuffer,
                  Event.write (encodeAscii command), Event.flush,
                  Event.sleepMs 500, Event.read cap])

/-- Source function `switch_kvm_port`, over a transport oracle.  Returns
the `SwitchResponse` and the trace of device-access events.  The `with`
statement guarantees a close whenever the open succeeded, on success and
failure paths alike; when the open itself raises, no handle exists and the
only event is the attempted open. -/
def switch_kvm_port (t : Transport) (serial_port : String) (port_num : Int) :
    SwitchResponse × List Event :=
  if validate_port_number port_num = false then
    ({success := false, port := port_num, command := "", response := "",
      error := some (invalidPortMsg port_num)}, [])
  else
    let command := (PORT_COMMANDS.lookup port_num).getD ""
    match t serial_port with
    | OpenResult.failed e =>
        (handleError serial_port port_num command e,
         [Event.openDevice serial_port SERIAL_CONFIG])
    | OpenResult.opened s =>
        let step := sessionSteps command s
        let trace := Event.openDevice serial_port SERIAL_CONFIG ::
          (step.2 ++ [Event.close])
        match step.1 with
        | Except.ok response =>
            ({success := true, port := port_num, command := command,
              response := response, error := none}, trace)
        | Except.error e =>
            (handleError serial_port port_num command e, trace)

/-- Spec-side command table (section 6 of the spec): port N in 1..9 maps
to the string X N comma 1 dollar, port 10 to XA,1$.  Stated separately from
`PORT_COMMANDS` so the two can be compared. -/
def specCommand (p : Int) : String :=
  if p = 10 then "XA,1$" else "X" ++ toString p ++ ",1$"

/-- Test whether `needle` is an initial segment of `hay`. -/
def headMatch : List Char → List Char → Bool
  | [], _ => true
  | _ :: _, [] => false
  | n :: ns, h :: hs => n = h && headMatch ns hs

/-- Python substring test `needle in hay`, on character lists. -/
def subOccurs (needle : List Char) : List Char → Bool
  | [] => headMatch needle []
  | h :: hs => headMatch needle (h :: hs) || subOccurs needle hs

/-- The keyword list of the source's descriptor filter. -/
def KEYWORDS : List String :=
  [("usb"), ("serial"), ("ch340"), ("ftdi"), ("cp210")]

/-- Python str.lower() (ASCII range, which covers device descriptors and
all the keywords). -/
def pyLower (s : String) : String :=
  ⟨s.data.map Char.toLower⟩

/-- Source filter condition: any keyword occurs in the lowercased
description. -/
def matchesKeyword (descr : String) : Bool :=
  KEYWORDS.any (fun k => subOccurs k.data (pyLower descr).data)

/-- One OS-reported port as `serial.tools.list_ports.comports()` yields it. -/
structure RawPort where
  device : String
  description : String
deriving DecidableEq

/-- Source model `SerialPortInfo` (pydantic). -/
structure SerialPortInfo where
  device : String
  description : String
deriving DecidableEq

/-- Source function `get_serial_ports`, over the comports oracle: on any
exception return the empty list; otherwise keep ports whose description
matches a keyword, defaulting a falsy description, and sort ascending by
device name (Python list.sort with key x.device, a stable ascending sort,
modelled by insertion sort). -/
def get_serial_ports (comports : Except Unit (List RawPort)) :
    List SerialPortInfo :=
  match comports with
  | Except.error _ => []
  | Except.ok ports =>
      let entries := (ports.filter (fun port => matchesKeyword port.description)).map
        (fun port =>
          {device := port.device,
           description :=
             if port.description = "" then "Serial Port " ++ port.device
             else port.description})
      List.insertionSort (fun a b => a.device ≤ b.device) entries

/-- One entry built by the loop body of `get_port_names_from_env`: the env
var KVM_PORT_p_NAME when set and truthy, else the default Server p. -/
def portNameEntry (getenv : String → Option String) (port : Int) :
    Int × String :=
  match getenv ("KVM_PORT_" ++ toString port ++ "_NAME") with
  | some v => if v = "" then (port, "Server " ++ toString port) else (port, v)
  | none => (port, "Server " ++ toString port)

/-- Source function `get_port_names_from_env`, over the environment
oracle. -/
def get_port_names_from_env (getenv : String → Option String) :
    List (Int × String) :=
  AVAILABLE_PORTS.map (portNameEntry getenv)


/-! Helper lemmas shared by the claim theorems. -/

lemma validate_true_iff (p : Int) :
    validate_port_number p = true ↔ (1 ≤ p ∧ p ≤ 10) := by
  simp [validate_port_number]

lemma validate_false_of (p : Int) (h : p < 1 ∨ 10 < p) :
    validate_port_number p = false := by
  rcases h with h | h <;> simp [validate_port_number] <;> omega

lemma str_append_ne (a b : String) (h : a.data ≠ []) : a ++ b ≠ "" := by
  intro hab
  apply h
  have hd := congrArg String.data hab
  rw [String.data_append] at hd
  exact (List.append_eq_nil.mp (by simpa using hd)).1

lemma invalidPortMsg_ne (p : Int) : invalidPortMsg p ≠ "" := by
  unfold invalidPortMsg
  apply str_append_ne
  rw [String.data_append]
  intro h
  exact absurd (List.append_eq_nil.mp h).1 (by decide)

lemma serialFailMsg_ne (m : String) : serialFailMsg m ≠ "" := by
  unfold serialFailMsg
  exact str_append_ne _ _ (by decide)

lemma accessDeniedMsg_ne (dev m : String) : accessDeniedMsg dev m ≠ "" := by
  unfold accessDeniedMsg
  apply str_append_ne
  rw [String.data_append, String.data_append]
  intro h
  exact absurd (List.append_eq_nil.mp (List.append_eq_nil.mp h).1).1 (by decide)

lemma unexpectedMsg_ne (m : String) : unexpectedMsg m ≠ "" := by
  unfold unexpectedMsg
  exact str_append_ne _ _ (by decide)

lemma lookup_valid (p : Int) (h1 : 1 ≤ p) (h2 : p ≤ 10) :
    PORT_COMMANDS.lookup p = some (specCommand p) := by
  interval_cases p <;> decide

lemma specCommand_ne (p : Int) (h1 : 1 ≤ p) (h2 : p ≤ 10) :
    specCommand p ≠ "" := by
  interval_cases p <;> decide

lemma specCommand_mem (p : Int) (h1 : 1 ≤ p) (h2 : p ≤ 10) :
    specCommand p ∈ PORT_COMMANDS.map Prod.snd := by
  interval_cases p <;> decide

lemma sessionSteps_write (cmd : String) (s : SerialSession) (b : List Nat)
    (h : Event.write b ∈ (sessionSteps cmd s).2) : b = encodeAscii cmd := by
  obtain ⟨ri, ro, we, fe, iw, rr⟩ := s
  cases ri <;> cases ro <;> cases we <;> cases fe <;> cases iw <;> cases rr <;>
    simp_all [sessionSteps]

lemma sessionSteps_cases (cmd : String) (s : SerialSession) :
    (∃ bs, s.readResult = Except.ok bs ∧
      (sessionSteps cmd s).1 = Except.ok (pyStrip (decodeAsciiIgnore bs))) ∨
    (∃ e, (sessionSteps cmd s).1 = Except.error e) := by
  obtain ⟨ri, ro, we, fe, iw, rr⟩ := s
  cases ri <;> cases ro <;> cases we <;> cases fe <;> cases iw <;> cases rr <;>
    simp_all [sessionSteps]

lemma switch_invalid (t : Transport) (dev : String) (p : Int)
    (hv : validate_port_number p = false) :
    switch_kvm_port t dev p =
      ({success := false, port := p, command := "", response := "",
        error := some (invalidPortMsg p)}, []) := by
  simp [switch_kvm_port, hv]

lemma switch_open_failed (t : Transport) (dev : String) (p : Int)
    (e : PyError) (hv : validate_port_number p = true)
    (htd : t dev = OpenResult.failed e) :
    switch_kvm_port t dev p =
      (handleError dev p ((PORT_COMMANDS.lookup p).getD "") e,
       [Event.openDevice dev SERIAL_CONFIG]) := by
  simp [switch_kvm_port, hv, htd]

lemma switch_opened_trace (t : Transport) (dev : String) (p : Int)
    (s : SerialSession) (hv : validate_port_number p = true)
    (htd : t dev = OpenResult.opened s) :
    (switch_kvm_port t dev p).2 =
      Event.openDevice dev SERIAL_CONFIG ::
        ((sessionSteps ((PORT_COMMANDS.lookup p).getD "") s).2 ++
          [Event.close]) := by
  simp only [switch_kvm_port, hv, Bool.true_eq_false, if_false, htd]
  split <;> rfl

lemma switch_session_error (t : Transport) (dev : String) (p : Int)
    (s : SerialSession) (e : PyError) (hv : validate_port_number p = true)
    (htd : t dev = OpenResult.opened s)
    (herr : (sessionSteps ((PORT_COMMANDS.lookup p).getD "") s).1 =
      Except.error e) :
    (switch_kvm_port t dev p).1 =
      handleError dev p ((PORT_COMMANDS.lookup p).getD "") e := by
  simp only [switch_kvm_port, hv, Bool.true_eq_false, if_false, htd, herr]

lemma switch_session_ok (t : Transport) (dev : String) (p : Int)
    (s : SerialSession) (resp : String) (hv : validate_port_number p = true)
    (htd : t dev = OpenResult.opened s)
    (hok : (sessionSteps ((PORT_COMMANDS.lookup p).getD "") s).1 =
      Except.ok resp) :
    (switch_kvm_port t dev p).1 =
      {success := true, port := p,
       command := (PORT_COMMANDS.lookup p).getD "",
       response := resp, error := none} := by
  simp only [switch_kvm_port, hv, Bool.true_eq_false, if_false, htd, hok]

lemma switch_command (t : Transport) (dev : String) (p : Int)
    (hv : validate_port_number p = true) :
    (switch_kvm_port t dev p).1.command = (PORT_COMMANDS.lookup p).getD "" := by
  cases htd : t dev with
  | failed e =>
      rw [switch_open_failed t dev p e hv htd]
      cases e <;> rfl
  | opened s =>
      rcases sessionSteps_cases ((PORT_COMMANDS.lookup p).getD "") s with
        ⟨bs, _, hok⟩ | ⟨e, herr⟩
      · rw [switch_session_ok t dev p s _ hv htd hok]
      · rw [switch_session_error t dev p s e hv htd herr]
        cases e <;> rfl

lemma switch_cases (t : Transport) (dev : String) (p : Int)
    (hv : validate_port_number p = true) :
    (∃ resp, (switch_kvm_port t dev p).1 =
      {success := true, port := p,
       command := (PORT_COMMANDS.lookup p).getD "",
       response := resp, error := none}) ∨
    (∃ e, (switch_kvm_port t dev p).1 =
      handleError dev p ((PORT_COMMANDS.lookup p).getD "") e) := by
  cases htd : t dev with
  | failed e =>
      right
      exact ⟨e, by rw [switch_open_failed t dev p e hv htd]⟩
  | opened s =>
      rcases sessionSteps_cases ((PORT_COMMANDS.lookup p).getD "") s with
        ⟨bs, _, hok⟩ | ⟨e, herr⟩
      · exact Or.inl ⟨_, switch_session_ok t dev p s _ hv htd hok⟩
      · exact Or.inr ⟨e, switch_session_error t dev p s e hv htd herr⟩

lemma switch_write_event (t : Transport) (dev : String) (p : Int)
    (b : List Nat) (h : Event.write b ∈ (switch_kvm_port t dev p).2) :
    b = encodeAscii ((PORT_COMMANDS.lookup p).getD "") := by
  by_cases hv : validate_port_number p = true
  · cases htd : t dev with
    | failed e =>
        rw [switch_open_failed t dev p e hv htd] at h
        simp at h
    | opened s =>
        rw [switch_opened_trace t dev p s hv htd] at h
        simp only [List.mem_cons, List.mem_append, List.mem_singleton] at h
        rcases h with h | h | h
        · exact absurd h (by intro hh; cases hh)
        · exact sessionSteps_write _ s b h
        · simp at h
  · have hv' : validate_port_number p = false := by
      revert hv; cases validate_port_number p <;> simp
    rw [switch_invalid t dev p hv'] at h
    simp at h

lemma sessionSteps_read_sleep (cmd : String) (s : SerialSession) (cap : Nat)
    (h : Event.read cap ∈ (sessionSteps cmd s).2) :
    ∃ post, (sessionSteps cmd s).2 =
      [Event.resetInputBuffer, Event.resetOutputBuffer,
       Event.write (encodeAscii cmd), Event.flush] ++
        Event.sleepMs 500 :: Event.read cap :: post := by
  obtain ⟨ri, ro, we, fe, iw, rr⟩ := s
  cases ri with
  | some e => simp [sessionSteps] at h
  | none =>
  cases ro with
  | some e => simp [sessionSteps] at h
  | none =>
  cases we with
  | some e => simp [sessionSteps] at h
  | none =>
  cases fe with
  | some e => simp [sessionSteps] at h
  | none =>
  cases iw with
  | error e => simp [sessionSteps] at h
  | ok w =>
  cases rr with
  | error e =>
      simp only [sessionSteps] at h ⊢
      simp at h
      subst h
      exact ⟨[], rfl⟩
  | ok bs =>
      simp only [sessionSteps] at h ⊢
      simp at h
      subst h
      exact ⟨[], rfl⟩

/-! Concrete oracles used by the witnesses. -/

/-- A transport whose open always raises a serial exception. -/
def stubTransport : Transport :=
  fun _ => OpenResult.failed (PyError.serialException ("stub"))

/-- A transport whose open always raises a permission error. -/
def permTransport : Transport :=
  fun _ => OpenResult.failed (PyError.permissionError ("denied"))

/-- A fault-free session delivering the raw bytes of two spaces, OK, CR,
LF with six bytes reported waiting. -/
def okSession : SerialSession :=
  {resetInputErr := none, resetOutputErr := none, writeErr := none,
   flushErr := none, inWaitingResult := Except.ok 6,
   readResult := Except.ok [32, 32, 79, 75, 13, 10]}

/-- A transport that opens into `okSession`. -/
def okTransport : Transport := fun _ => OpenResult.opened okSession

/-- A fault-free session reporting 2000 bytes waiting. -/
def busySession : SerialSession :=
  {resetInputErr := none, resetOutputErr := none, writeErr := none,
   flushErr := none, inWaitingResult := Except.ok 2000,
   readResult := Except.ok []}

/-- A transport that opens into `busySession`. -/
def busyTransport : Transport := fun _ => OpenResult.opened busySession

/-- A fault-free session reporting zero bytes waiting. -/
def zeroWaitSession : SerialSession :=
  {resetInputErr := none, resetOutputErr := none, writeErr := none,
   flushErr := none, inWaitingResult := Except.ok 0,
   readResult := Except.ok []}

/-- A transport that opens into `zeroWaitSession`. -/
def zeroWaitTransport : Transport := fun _ => OpenResult.opened zeroWaitSession

/-! Claim theorems. -/

/-- Claim C1: for every device string and every integer port outside 1..10,
`switch_kvm_port` returns success false with empty command and response and
the non-empty invalid-port error, and the device-access trace is empty (the
serial transport is never invoked). -/
theorem C1_invalid_port_rejected (t : Transport) (device : String) (p : Int)
    (h : p < 1 ∨ 10 < p) :
    switch_kvm_port t device p =
      ({success := false, port := p, command := "", response := "",
        error := some (invalidPortMsg p)}, []) ∧
    invalidPortMsg p ≠ "" :=
  ⟨switch_invalid t device p (validate_false_of p h), invalidPortMsg_ne p⟩

theorem C1_invalid_port_rejected_witness :
    ((0 : Int) < 1 ∨ 10 < (0 : Int)) ∧
    (switch_kvm_port stubTransport ("/dev/ttyUSB0") 0 =
      ({success := false, port := 0, command := "", response := "",
        error := some (invalidPortMsg 0)}, []) ∧
     invalidPortMsg 0 ≠ "") :=
  ⟨by decide,
   C1_invalid_port_rejected stubTransport ("/dev/ttyUSB0") 0 (by decide)⟩

/-- Claim C2: the command table has exactly 10 entries keyed by the ports
1..10, each entry is bit-exact to the protocol string of the spec
(`specCommand`), and for every valid port both the command field of the
result and the bytes of any write event equal the table entry. -/
theorem C2_command_table (t : Transport) (device : String) (p : Int)
    (h1 : 1 ≤ p) (h2 : p ≤ 10) :
    PORT_COMMANDS.length = 10 ∧
    PORT_COMMANDS.map Prod.fst = [1, 2, 3, 4, 5, 6, 7, 8, 9, 10] ∧
    PORT_COMMANDS.lookup p = some (specCommand p) ∧
    (switch_kvm_port t device p).1.command = specCommand p ∧
    (∀ b, Event.write b ∈ (switch_kvm_port t device p).2 →
      b = encodeAscii (specCommand p)) := by
  have hv : validate_port_number p = true := (validate_true_iff p).mpr ⟨h1, h2⟩
  have hlk := lookup_valid p h1 h2
  refine ⟨rfl, rfl, hlk, ?_, ?_⟩
  · rw [switch_command t device p hv, hlk]
    rfl
  · intro b hb
    have hwb := switch_write_event t device p b hb
    rw [hlk] at hwb
    exact hwb

theorem C2_command_table_witness :
    (1 ≤ (10 : Int) ∧ (10 : Int) ≤ 10) ∧
    (PORT_COMMANDS.length = 10 ∧
     PORT_COMMANDS.map Prod.fst = [1, 2, 3, 4, 5, 6, 7, 8, 9, 10] ∧
     PORT_COMMANDS.lookup 10 = some (specCommand 10) ∧
     (switch_kvm_port stubTransport ("/dev/ttyUSB0") 10).1.command =
       specCommand 10 ∧
     (∀ b, Event.write b ∈ (switch_kvm_port stubTransport ("/dev/ttyUSB0") 10).2 →
       b = encodeAscii (specCommand 10))) ∧
    specCommand 10 = "XA,1$" :=
  ⟨by decide,
   C2_command_table stubTransport ("/dev/ttyUSB0") 10 (by decide) (by decide),
   by decide⟩

/-- Claim C8: the validator is a total Lean function on the integers (so it
is pure, deterministic and never fails), and it returns true exactly on
1..10. -/
theorem C8_validator_correct (p : Int) :
    validate_port_number p = true ↔ (1 ≤ p ∧ p ≤ 10) := by
  simp [validate_port_number]

/-- Claim C4: `switch_kvm_port` is a total Lean function (no outward
exception on any oracle outcome) returning exactly one result, and every
result is well-formed: a success carries no error and a non-empty command
from the table; a failure carries a non-empty error, and its command can be
empty only when validation failed. -/
theorem C4_result_invariant (t : Transport) (dev : String) (p : Int) :
    ((switch_kvm_port t dev p).1.success = true ∧
     (switch_kvm_port t dev p).1.error = none ∧
     (switch_kvm_port t dev p).1.command ≠ "" ∧
     (switch_kvm_port t dev p).1.command ∈ PORT_COMMANDS.map Prod.snd) ∨
    ((switch_kvm_port t dev p).1.success = false ∧
     (switch_kvm_port t dev p).1.error ≠ none ∧
     (switch_kvm_port t dev p).1.error ≠ some "" ∧
     ((switch_kvm_port t dev p).1.command ≠ "" ∨
       validate_port_number p = false)) := by
  by_cases hv : validate_port_number p = true
  · obtain ⟨h1, h2⟩ := (validate_true_iff p).mp hv
    have hlk := lookup_valid p h1 h2
    have hcmdne : (PORT_COMMANDS.lookup p).getD "" ≠ "" := by
      rw [hlk]
      exact specCommand_ne p h1 h2
    have hcmdmem :
        (PORT_COMMANDS.lookup p).getD "" ∈ PORT_COMMANDS.map Prod.snd := by
      rw [hlk]
      exact specCommand_mem p h1 h2
    rcases switch_cases t dev p hv with ⟨resp, hres⟩ | ⟨e, hres⟩
    · left
      rw [hres]
      exact ⟨rfl, rfl, hcmdne, hcmdmem⟩
    · right
      rw [hres]
      cases e with
      | serialException m =>
          exact ⟨rfl, by simp [handleError],
            by simpa [handleError] using serialFailMsg_ne m, Or.inl hcmdne⟩
      | permissionError m =>
          exact ⟨rfl, by simp [handleError],
            by simpa [handleError] using accessDeniedMsg_ne dev m, Or.inl hcmdne⟩
      | otherError m =>
          exact ⟨rfl, by simp [handleError],
            by simpa [handleError] using unexpectedMsg_ne m, Or.inl hcmdne⟩
  · have hv' : validate_port_number p = false := by
      revert hv
      cases validate_port_number p <;> simp
    right
    rw [switch_invalid t dev p hv']
    exact ⟨rfl, by simp, by simpa using invalidPortMsg_ne p, Or.inr hv'⟩

/-- Claim C3: for every valid port, a transport failure yields success
false, empty response, the command still populated with the table entry,
and the error mapped by fault class: permission fault to the access-denied
message, serial fault to the serial-communication message, anything else to
the unexpected-error message; this holds both when the open raises and when
any later step of the session raises. -/
theorem C3_failure_mapping (t : Transport) (dev : String) (p : Int)
    (s : SerialSession) (e : PyError) (h1 : 1 ≤ p) (h2 : p ≤ 10) :
    ((handleError dev p (specCommand p) e).success = false ∧
     (handleError dev p (specCommand p) e).response = "" ∧
     (handleError dev p (specCommand p) e).command = specCommand p ∧
     (handleError dev p (specCommand p) e).error =
       some (match e with
             | PyError.serialException m => serialFailMsg m
             | PyError.permissionError m => accessDeniedMsg dev m
             | PyError.otherError m => unexpectedMsg m)) ∧
    (t dev = OpenResult.failed e →
      (switch_kvm_port t dev p).1 = handleError dev p (specCommand p) e) ∧
    (t dev = OpenResult.opened s →
      (sessionSteps (specCommand p) s).1 = Except.error e →
      (switch_kvm_port t dev p).1 = handleError dev p (specCommand p) e) := by
  have hv : validate_port_number p = true := (validate_true_iff p).mpr ⟨h1, h2⟩
  have hgd : (PORT_COMMANDS.lookup p).getD "" = specCommand p := by
    rw [lookup_valid p h1 h2]
    rfl
  refine ⟨⟨?_, ?_, ?_, ?_⟩, ?_, ?_⟩
  · cases e <;> rfl
  · cases e <;> rfl
  · cases e <;> rfl
  · cases e <;> rfl
  · intro htd
    have hof := switch_open_failed t dev p e hv htd
    rw [congrArg Prod.fst hof, hgd]
  · intro htd herr
    have herr' : (sessionSteps ((PORT_COMMANDS.lookup p).getD "") s).1 =
        Except.error e := by
      rw [hgd]
      exact herr
    rw [switch_session_error t dev p s e hv htd herr', hgd]

theorem C3_failure_mapping_witness :
    (1 ≤ (3 : Int) ∧ (3 : Int) ≤ 10) ∧
    permTransport ("/dev/ttyUSB0") =
      OpenResult.failed (PyError.permissionError ("denied")) ∧
    (switch_kvm_port permTransport ("/dev/ttyUSB0") 3).1 =
      handleError ("/dev/ttyUSB0") 3 (specCommand 3)
        (PyError.permissionError ("denied")) ∧
    (handleError ("/dev/ttyUSB0") 3 (specCommand 3)
        (PyError.permissionError ("denied"))).error =
      some (accessDeniedMsg ("/dev/ttyUSB0") ("denied")) := by
  have h := C3_failure_mapping permTransport ("/dev/ttyUSB0") 3 okSession
    (PyError.permissionError ("denied")) (by decide) (by decide)
  exact ⟨by decide, rfl, h.2.1 rfl, by decide⟩

/-- Claim C5: for every valid port, when every transport step succeeds the
transaction returns success true with no error and the response is the raw
bytes decoded as ASCII (undecodable bytes ignored) and whitespace-trimmed;
the witness instantiates the raw bytes to two spaces, OK, CR, LF and checks
the response is the string OK. -/
theorem C5_success_response (t : Transport) (dev : String) (p : Int)
    (s : SerialSession) (w : Nat) (bytes : List Nat)
    (h1 : 1 ≤ p) (h2 : p ≤ 10)
    (hopen : t dev = OpenResult.opened s)
    (hri : s.resetInputErr = none) (hro : s.resetOutputErr = none)
    (hw : s.writeErr = none) (hf : s.flushErr = none)
    (hiw : s.inWaitingResult = Except.ok w)
    (hrd : s.readResult = Except.ok bytes) :
    (switch_kvm_port t dev p).1 =
      {success := true, port := p, command := specCommand p,
       response := pyStrip (decodeAsciiIgnore bytes), error := none} := by
  have hv : validate_port_number p = true := (validate_true_iff p).mpr ⟨h1, h2⟩
  have hgd : (PORT_COMMANDS.lookup p).getD "" = specCommand p := by
    rw [lookup_valid p h1 h2]
    rfl
  have hok : (sessionSteps ((PORT_COMMANDS.lookup p).getD "") s).1 =
      Except.ok (pyStrip (decodeAsciiIgnore bytes)) := by
    obtain ⟨ri, ro, we, fe, iw, rr⟩ := s
    dsimp only at hri hro hw hf hiw hrd
    subst hri hro hw hf hiw hrd
    simp [sessionSteps]
  rw [switch_session_ok t dev p s _ hv hopen hok, hgd]

theorem C5_success_response_witness :
    (1 ≤ (1 : Int) ∧ (1 : Int) ≤ 10) ∧
    okTransport ("/dev/ttyUSB0") = OpenResult.opened okSession ∧
    (switch_kvm_port okTransport ("/dev/ttyUSB0") 1).1 =
      {success := true, port := 1, command := specCommand 1,
       response := pyStrip (decodeAsciiIgnore [32, 32, 79, 75, 13, 10]),
       error := none} ∧
    pyStrip (decodeAsciiIgnore [32, 32, 79, 75, 13, 10]) = "OK" ∧
    specCommand 1 = "X1,1$" :=
  ⟨by decide, rfl,
   C5_success_response okTransport ("/dev/ttyUSB0") 1 okSession 6
     [32, 32, 79, 75, 13, 10] (by decide) (by decide) rfl rfl rfl rfl rfl
     rfl rfl,
   by decide, by decide⟩

/-- Claim C6: on every execution path whose trace contains a read event,
the trace has the fixed 500 ms sleep immediately before that read, and the
write of the command bytes and the flush both occur earlier; so the settle
delay runs after write and flush and before the read, on every branch that
reaches the read. -/
theorem C6_settle_delay (t : Transport) (dev : String) (p : Int) (cap : Nat)
    (h : Event.read cap ∈ (switch_kvm_port t dev p).2) :
    ∃ pre post, (switch_kvm_port t dev p).2 =
        pre ++ Event.sleepMs 500 :: Event.read cap :: post ∧
      Event.flush ∈ pre ∧ ∃ b, Event.write b ∈ pre := by
  by_cases hv : validate_port_number p = true
  · cases htd : t dev with
    | failed e =>
        rw [switch_open_failed t dev p e hv htd] at h
        simp at h
    | opened s =>
        have htr := switch_opened_trace t dev p s hv htd
        rw [htr] at h
        simp only [List.mem_cons, List.mem_append, List.mem_singleton] at h
        rcases h with h | h | h
        · simp at h
        · obtain ⟨post, hpost⟩ :=
            sessionSteps_read_sleep ((PORT_COMMANDS.lookup p).getD "") s cap h
          refine ⟨Event.openDevice dev SERIAL_CONFIG ::
              [Event.resetInputBuffer, Event.resetOutputBuffer,
               Event.write (encodeAscii ((PORT_COMMANDS.lookup p).getD "")),
               Event.flush],
            post ++ [Event.close], ?_, by simp,
            ⟨encodeAscii ((PORT_COMMANDS.lookup p).getD ""), by simp⟩⟩
          rw [htr, hpost]
          simp
        · simp at h
  · have hv' : validate_port_number p = false := by
      revert hv
      cases validate_port_number p <;> simp
    rw [switch_invalid t dev p hv'] at h
    simp at h

theorem C6_settle_delay_witness :
    Event.read 6 ∈ (switch_kvm_port okTransport ("/dev/ttyUSB0") 2).2 ∧
    (∃ pre post, (switch_kvm_port okTransport ("/dev/ttyUSB0") 2).2 =
        pre ++ Event.sleepMs 500 :: Event.read 6 :: post ∧
      Event.flush ∈ pre ∧ ∃ b, Event.write b ∈ pre) :=
  ⟨by decide, C6_settle_delay okTransport ("/dev/ttyUSB0") 2 6 (by decide)⟩

/-- Claim C7, counterexample: with 2000 bytes reported waiting the read is
issued with size 2000, which exceeds 1024, so the read is not bounded to a
1024-byte cap in all cases. -/
theorem C7_read_cap_counterexample :
    Event.read 2000 ∈ (switch_kvm_port busyTransport ("/dev/ttyUSB0") 1).2 ∧
    ¬ (2000 ≤ 1024) := by decide

/-- Claim C7 as amended: for every valid port, when the transaction reaches
the read, the read size is the reported in-waiting count when that is
positive and 1024 only when the device reports zero bytes waiting (the
opportunistic read), with the configured read timeout of 1000 ms as the
bound. -/
theorem C7_read_cap_amended (t : Transport) (dev : String) (p : Int)
    (s : SerialSession) (w : Nat) (h1 : 1 ≤ p) (h2 : p ≤ 10)
    (hopen : t dev = OpenResult.opened s)
    (hri : s.resetInputErr = none) (hro : s.resetOutputErr = none)
    (hw : s.writeErr = none) (hf : s.flushErr = none)
    (hiw : s.inWaitingResult = Except.ok w) :
    Event.read (if w = 0 then 1024 else w) ∈ (switch_kvm_port t dev p).2 ∧
    SERIAL_CONFIG.timeoutMs = 1000 := by
  have hv : validate_port_number p = true := (validate_true_iff p).mpr ⟨h1, h2⟩
  refine ⟨?_, rfl⟩
  rw [switch_opened_trace t dev p s hv hopen]
  obtain ⟨ri, ro, we, fe, iw, rr⟩ := s
  dsimp only at hri hro hw hf hiw
  subst hri hro hw hf hiw
  cases rr <;> simp [sessionSteps]

theorem C7_read_cap_amended_witness :
    (1 ≤ (4 : Int) ∧ (4 : Int) ≤ 10) ∧
    (Event.read (if 0 = 0 then 1024 else 0) ∈
      (switch_kvm_port zeroWaitTransport ("/dev/ttyUSB0") 4).2 ∧
     SERIAL_CONFIG.timeoutMs = 1000) :=
  ⟨by decide,
   C7_read_cap_amended zeroWaitTransport ("/dev/ttyUSB0") 4 zeroWaitSession 0
     (by decide) (by decide) rfl rfl rfl rfl rfl rfl⟩

instance : IsTotal SerialPortInfo (fun a b => a.device ≤ b.device) :=
  ⟨fun a b => le_total a.device b.device⟩

instance : IsTrans SerialPortInfo (fun a b => a.device ≤ b.device) :=
  ⟨fun _ _ _ hab hbc => le_trans hab hbc⟩

lemma portNameEntry_fst (g : String → Option String) (port : Int) :
    (portNameEntry g port).1 = port := by
  unfold portNameEntry
  cases g ("KVM_PORT_" ++ toString port ++ "_NAME") with
  | none => rfl
  | some v =>
      by_cases hv : v = "" <;> simp [hv]

lemma portNameEntry_snd_ne (g : String → Option String) (port : Int) :
    (portNameEntry g port).2 ≠ "" := by
  unfold portNameEntry
  cases g ("KVM_PORT_" ++ toString port ++ "_NAME") with
  | none => exact str_append_ne _ _ (by decide)
  | some v =>
      by_cases hv : v = ""
      · simpa [hv] using str_append_ne ("Server ") (toString port) (by decide)
      · simp [hv]

lemma portNameEntry_env (g : String → Option String) (port : Int)
    (v : String) (hg : g ("KVM_PORT_" ++ toString port ++ "_NAME") = some v)
    (hv : v ≠ "") : (portNameEntry g port).2 = v := by
  unfold portNameEntry
  rw [hg]
  simp [hv]

lemma portNameEntry_default (g : String → Option String) (port : Int)
    (hg : g ("KVM_PORT_" ++ toString port ++ "_NAME") = none ∨
      g ("KVM_PORT_" ++ toString port ++ "_NAME") = some "") :
    (portNameEntry g port).2 = "Server " ++ toString port := by
  unfold portNameEntry
  rcases hg with hg | hg <;> simp [hg]

/-- Claim C9: `get_serial_ports` is a total Lean function (the underlying
enumeration failing is an oracle outcome, not an exception), it returns the
empty list whenever the enumeration fails, every returned entry's
description matches one of the filter keywords, and the returned list is
sorted ascending by device name. -/
theorem C9_discovery_safe (cp : Except Unit (List RawPort)) :
    (∀ u : Unit, cp = Except.error u → get_serial_ports cp = []) ∧
    (∀ info, info ∈ get_serial_ports cp →
      matchesKeyword info.description = true) ∧
    List.Pairwise (fun a b : SerialPortInfo => a.device ≤ b.device)
      (get_serial_ports cp) := by
  refine ⟨?_, ?_, ?_⟩
  · intro u hcp
    rw [hcp]
    rfl
  · intro info hmem
    cases cp with
    | error u => simp [get_serial_ports] at hmem
    | ok ports =>
        simp only [get_serial_ports] at hmem
        have hmem2 :=
          (List.perm_insertionSort
            (fun a b : SerialPortInfo => a.device ≤ b.device) _).mem_iff.mp hmem
        simp only [List.mem_map, List.mem_filter] at hmem2
        obtain ⟨port, ⟨hp, hmatch⟩, heq⟩ := hmem2
        by_cases hd : port.description = ""
        · rw [hd] at hmatch
          exact absurd hmatch (by decide)
        · rw [← heq]
          simpa [hd] using hmatch
  · cases cp with
    | error u => simp [get_serial_ports]
    | ok ports =>
        exact List.sorted_insertionSort _ _

theorem C9_discovery_safe_witness :
    (Except.error () : Except Unit (List RawPort)) = Except.error () ∧
    get_serial_ports (Except.error ()) = [] :=
  ⟨rfl, (C9_discovery_safe (Except.error ())).1 () rfl⟩

/-- Claim C10: `get_port_names_from_env` always returns entries keyed
exactly by the ports 1..10, every value is non-empty, and for each port the
value is the environment variable KVM_PORT_p_NAME when that variable is set
and non-empty and the default Server p otherwise. -/
theorem C10_port_names (getenv : String → Option String) :
    (get_port_names_from_env getenv).map Prod.fst = AVAILABLE_PORTS ∧
    (∀ pv, pv ∈ get_port_names_from_env getenv → pv.2 ≠ "") ∧
    (∀ pv, pv ∈ get_port_names_from_env getenv →
      (∀ v, getenv ("KVM_PORT_" ++ toString pv.1 ++ "_NAME") = some v →
        v ≠ "" → pv.2 = v) ∧
      ((getenv ("KVM_PORT_" ++ toString pv.1 ++ "_NAME") = none ∨
        getenv ("KVM_PORT_" ++ toString pv.1 ++ "_NAME") = some "") →
        pv.2 = "Server " ++ toString pv.1)) := by
  refine ⟨?_, ?_, ?_⟩
  · simp [get_port_names_from_env, AVAILABLE_PORTS, portNameEntry_fst]
  · intro pv hpv
    simp only [get_port_names_from_env] at hpv
    obtain ⟨port, hport, heq⟩ := List.mem_map.mp hpv
    subst heq
    exact portNameEntry_snd_ne getenv port
  · intro pv hpv
    simp only [get_port_names_from_env] at hpv
    obtain ⟨port, hport, heq⟩ := List.mem_map.mp hpv
    subst heq
    rw [portNameEntry_fst]
    constructor
    · intro v hg hv
      exact portNameEntry_env getenv port v hg hv
    · intro hg
      exact portNameEntry_default getenv port hg

theorem C10_port_names_witness :
    ((2 : Int), ("Server 2" : String)) ∈
      get_port_names_from_env (fun _ => none) ∧
    ((2 : Int), ("Server 2" : String)).2 ≠ "" :=
  ⟨by decide,
   (C10_port_names (fun _ => none)).2.1 ((2 : Int), ("Server 2" : String))
     (by decide)⟩
